import Mathlib

/-!
Verification of `tensorflow/contrib/learn/python/learn/estimators/dnn.py`.

The file under verification defines two facade classes, `DNNClassifier` and
`DNNRegressor`, that forward a fixed set of hyperparameters under renamed
keywords to the combined linear+deep parent estimators defined in
`dnn_linear_combined.py`, override `_get_train_ops` to lazily infer
real-valued feature columns, expose `weights_` and `bias_` as pass-through
views of the parent's trained parameters, and declare two deprecated alias
classes.  The parent estimator, `layers.infer_real_valued_columns`,
`DeprecatedMixin` and the sklearn mixins are not part of the repository and
are modelled from the specification where so marked.

Opaque Python values (optimizers, run configurations, dropout probabilities,
gradient-clipping norms, trained weight tensors) are passed through verbatim
and never computed with at this layer, so they are embedded as values of an
arbitrary type `V`.  Targets are likewise opaque, embedded as a type `T`.
-/

namespace Dnn

/-- A feature column: a named descriptor of one input field, declared either
real-valued or sparse-categorical (glossary of the design document). -/
inductive FeatureColumn where
  | real_valued (name : String)
  | sparse (name : String)
  deriving DecidableEq, Repr

/-- A value in the input feature mapping: a dense tensor for real-valued
fields or a sparse tensor for categorical fields. -/
inductive FeatureValue where
  | denseTensor (data : List Int)
  | sparseTensor (data : List Int)
  deriving DecidableEq, Repr

/-- Whether an input feature value is a dense, real-valued tensor. -/
def FeatureValue.isDense : FeatureValue → Bool
  | .denseTensor _ => true
  | .sparseTensor _ => false

/-- The input feature mapping passed to `_get_train_ops`: feature name to
feature value. -/
abbrev Features := List (String × FeatureValue)

/-- An activation function choice; the file only ever names `nn.relu`, all
other values are opaque. -/
inductive ActivationFn where
  | relu
  | custom (id : Nat)
  deriving DecidableEq, Repr

namespace nn

/-- The standard rectified-linear unit from `tensorflow.python.ops.nn`,
used as the default `activation_fn` in both facade signatures. -/
def relu : ActivationFn := ActivationFn.relu

end nn

namespace layers

/-- Modelled from the spec: `tf.contrib.layers.infer_real_valued_columns` is
not under `src/`; per the spec the facade infers a feature-column collection
"by scanning the input mapping for real-valued fields", producing one
real-valued column per dense field of the mapping. -/
def infer_real_valued_columns (features : Features) : List FeatureColumn :=
  (features.filter (fun p => p.2.isDense)).map
    (fun p => FeatureColumn.real_valued p.1)

end layers

/-- The hyperparameter state stored by the parent
`DNNLinearCombinedClassifier`: every keyword of its constructor, plus the
trained deep-network parameters (absent until training). -/
structure DNNLinearCombinedClassifierState (V : Type) where
  model_dir : Option String
  n_classes : Nat
  weight_column_name : Option String
  linear_feature_columns : Option (List FeatureColumn)
  linear_optimizer : Option V
  dnn_feature_columns : Option (List FeatureColumn)
  dnn_optimizer : Option V
  dnn_hidden_units : List Nat
  dnn_activation_fn : ActivationFn
  dnn_dropout : Option V
  gradient_clip_norm : Option V
  config : Option V
  dnn_weights_val : Option V
  dnn_bias_val : Option V
  deriving DecidableEq

/-- The hyperparameter state stored by the parent
`DNNLinearCombinedRegressor`: identical to the classifier's minus the class
count. -/
structure DNNLinearCombinedRegressorState (V : Type) where
  model_dir : Option String
  weight_column_name : Option String
  linear_feature_columns : Option (List FeatureColumn)
  linear_optimizer : Option V
  dnn_feature_columns : Option (List FeatureColumn)
  dnn_optimizer : Option V
  dnn_hidden_units : List Nat
  dnn_activation_fn : ActivationFn
  dnn_dropout : Option V
  gradient_clip_norm : Option V
  config : Option V
  dnn_weights_val : Option V
  dnn_bias_val : Option V
  deriving DecidableEq

/-- Modelled from the spec: the parent combined linear+deep classifier
constructor (`dnn_linear_combined.DNNLinearCombinedClassifier.__init__`) is
not under `src/`; per the spec every supplied value is "stored verbatim"
under its keyword, the class count "must exceed 1" with "validation, if any,
... in the parent constructor", and the trained parameters are unset at
construction. -/
def DNNLinearCombinedClassifier.init (V : Type)
    (model_dir : Option String) (n_classes : Nat)
    (weight_column_name : Option String)
    (linear_feature_columns : Option (List FeatureColumn))
    (linear_optimizer : Option V)
    (dnn_feature_columns : Option (List FeatureColumn))
    (dnn_optimizer : Option V) (dnn_hidden_units : List Nat)
    (dnn_activation_fn : ActivationFn) (dnn_dropout : Option V)
    (gradient_clip_norm : Option V) (config : Option V) :
    Except String (DNNLinearCombinedClassifierState V) :=
  if n_classes ≤ 1 then
    Except.error "n_classes should be greater than 1"
  else
    Except.ok ⟨model_dir, n_classes, weight_column_name,
      linear_feature_columns, linear_optimizer, dnn_feature_columns,
      dnn_optimizer, dnn_hidden_units, dnn_activation_fn, dnn_dropout,
      gradient_clip_norm, config, none, none⟩

/-- Modelled from the spec: the parent combined linear+deep regressor
constructor (`dnn_linear_combined.DNNLinearCombinedRegressor.__init__`) is
not under `src/`; per the spec every supplied value is stored verbatim under
its keyword and the trained parameters are unset at construction. -/
def DNNLinearCombinedRegressor.init (V : Type)
    (model_dir : Option String) (weight_column_name : Option String)
    (linear_feature_columns : Option (List FeatureColumn))
    (linear_optimizer : Option V)
    (dnn_feature_columns : Option (List FeatureColumn))
    (dnn_optimizer : Option V) (dnn_hidden_units : List Nat)
    (dnn_activation_fn : ActivationFn) (dnn_dropout : Option V)
    (gradient_clip_norm : Option V) (config : Option V) :
    DNNLinearCombinedRegressorState V :=
  ⟨model_dir, weight_column_name, linear_feature_columns, linear_optimizer,
    dnn_feature_columns, dnn_optimizer, dnn_hidden_units, dnn_activation_fn,
    dnn_dropout, gradient_clip_norm, config, none, none⟩

/-- The training operations handed back to the run loop: modelled from the
spec as an opaque record of the receiver state and the inputs the parent's
training-op construction receives, since all graph construction is "out of
scope" and owned by the parent framework. -/
structure TrainOps (S T : Type) where
  state : S
  features : Features
  targets : T
  deriving DecidableEq

/-- Modelled from the spec: the parent classifier's `_get_train_ops` (model
and graph construction) is not under `src/` and is out of scope; it is
modelled as the opaque record of the receiver and its inputs. -/
def DNNLinearCombinedClassifier.get_train_ops (V T : Type)
    (self : DNNLinearCombinedClassifierState V) (features : Features)
    (targets : T) : TrainOps (DNNLinearCombinedClassifierState V) T :=
  ⟨self, features, targets⟩

/-- Modelled from the spec: the parent regressor's `_get_train_ops` is not
under `src/` and is out of scope; it is modelled as the opaque record of the
receiver and its inputs. -/
def DNNLinearCombinedRegressor.get_train_ops (V T : Type)
    (self : DNNLinearCombinedRegressorState V) (features : Features)
    (targets : T) : TrainOps (DNNLinearCombinedRegressorState V) T :=
  ⟨self, features, targets⟩

/-- Modelled from the spec: the parent's `dnn_weights_` property is not
under `src/`; per the spec it returns the trained deep-network weights and
fails "if accessed before training". -/
def DNNLinearCombinedClassifier.dnn_weights_ (V : Type)
    (self : DNNLinearCombinedClassifierState V) : Except String V :=
  match self.dnn_weights_val with
  | some w => Except.ok w
  | none => Except.error "DNNLinearCombinedClassifier has not been fitted"

/-- Modelled from the spec: the parent's `dnn_bias_` property is not under
`src/`; per the spec it returns the trained deep-network bias and fails if
accessed before training. -/
def DNNLinearCombinedClassifier.dnn_bias_ (V : Type)
    (self : DNNLinearCombinedClassifierState V) : Except String V :=
  match self.dnn_bias_val with
  | some b => Except.ok b
  | none => Except.error "DNNLinearCombinedClassifier has not been fitted"

/-- Modelled from the spec: the regressor parent's `dnn_weights_` property,
as for the classifier. -/
def DNNLinearCombinedRegressor.dnn_weights_ (V : Type)
    (self : DNNLinearCombinedRegressorState V) : Except String V :=
  match self.dnn_weights_val with
  | some w => Except.ok w
  | none => Except.error "DNNLinearCombinedRegressor has not been fitted"

/-- Modelled from the spec: the regressor parent's `dnn_bias_` property, as
for the classifier. -/
def DNNLinearCombinedRegressor.dnn_bias_ (V : Type)
    (self : DNNLinearCombinedRegressorState V) : Except String V :=
  match self.dnn_bias_val with
  | some b => Except.ok b
  | none => Except.error "DNNLinearCombinedRegressor has not been fitted"

/-- From the source (`DNNClassifier.__init__`): forwards each argument to
the parent constructor under its renamed keyword (`feature_columns` as
`dnn_feature_columns`, `optimizer` as `dnn_optimizer`, `hidden_units` as
`dnn_hidden_units`, `activation_fn` as `dnn_activation_fn`, `dropout` as
`dnn_dropout`; the rest unrenamed).  The linear-side parameters are not
mentioned in the call, so they take the parent's defaults (absent). -/
def DNNClassifier.init (V : Type) (hidden_units : List Nat)
    (feature_columns : Option (List FeatureColumn))
    (model_dir : Option String) (n_classes : Nat)
    (weight_column_name : Option String) (optimizer : Option V)
    (activation_fn : ActivationFn) (dropout : Option V)
    (gradient_clip_norm : Option V) (config : Option V) :
    Except String (DNNLinearCombinedClassifierState V) :=
  DNNLinearCombinedClassifier.init V model_dir n_classes weight_column_name
    none none feature_columns optimizer hidden_units activation_fn dropout
    gradient_clip_norm config

/-- From the source (`DNNRegressor.__init__`): forwards each argument to the
parent constructor under its renamed keyword; no class count, linear-side
parameters left at the parent's defaults (absent). -/
def DNNRegressor.init (V : Type) (hidden_units : List Nat)
    (feature_columns : Option (List FeatureColumn))
    (model_dir : Option String) (weight_column_name : Option String)
    (optimizer : Option V) (activation_fn : ActivationFn)
    (dropout : Option V) (gradient_clip_norm : Option V)
    (config : Option V) : DNNLinearCombinedRegressorState V :=
  DNNLinearCombinedRegressor.init V model_dir weight_column_name none none
    feature_columns optimizer hidden_units activation_fn dropout
    gradient_clip_norm config

/-- From the source (`DNNClassifier._get_train_ops`): if the stored
`_dnn_feature_columns` field is `None`, assign it the columns inferred from
`features`; then delegate to the parent's `_get_train_ops` on the (possibly
updated) receiver.  Returns the updated receiver with the parent's result. -/
def DNNClassifier.get_train_ops (V T : Type)
    (self : DNNLinearCombinedClassifierState V) (features : Features)
    (targets : T) :
    DNNLinearCombinedClassifierState V ×
      TrainOps (DNNLinearCombinedClassifierState V) T :=
  let self' :=
    if self.dnn_feature_columns.isNone then
      { self with
        dnn_feature_columns := some (layers.infer_real_valued_columns features) }
    else self
  (self', DNNLinearCombinedClassifier.get_train_ops V T self' features targets)

/-- From the source (`DNNRegressor._get_train_ops`): same override as the
classifier's. -/
def DNNRegressor.get_train_ops (V T : Type)
    (self : DNNLinearCombinedRegressorState V) (features : Features)
    (targets : T) :
    DNNLinearCombinedRegressorState V ×
      TrainOps (DNNLinearCombinedRegressorState V) T :=
  let self' :=
    if self.dnn_feature_columns.isNone then
      { self with
        dnn_feature_columns := some (layers.infer_real_valued_columns features) }
    else self
  (self', DNNLinearCombinedRegressor.get_train_ops V T self' features targets)

/-- From the source (`DNNClassifier.weights_`): returns `self.dnn_weights_`
with no transformation. -/
def DNNClassifier.weights_ (V : Type)
    (self : DNNLinearCombinedClassifierState V) : Except String V :=
  DNNLinearCombinedClassifier.dnn_weights_ V self

/-- From the source (`DNNClassifier.bias_`): returns `self.dnn_bias_` with
no transformation. -/
def DNNClassifier.bias_ (V : Type)
    (self : DNNLinearCombinedClassifierState V) : Except String V :=
  DNNLinearCombinedClassifier.dnn_bias_ V self

/-- From the source (`DNNRegressor.weights_`): returns `self.dnn_weights_`
with no transformation. -/
def DNNRegressor.weights_ (V : Type)
    (self : DNNLinearCombinedRegressorState V) : Except String V :=
  DNNLinearCombinedRegressor.dnn_weights_ V self

/-- From the source (`DNNRegressor.bias_`): returns `self.dnn_bias_` with no
transformation. -/
def DNNRegressor.bias_ (V : Type)
    (self : DNNLinearCombinedRegressorState V) : Except String V :=
  DNNLinearCombinedRegressor.dnn_bias_ V self

/-- The argument list of `DNNClassifier.__init__` as written in the source
signature, one field per parameter in declaration order. -/
structure DNNClassifierArgs (V : Type) where
  hidden_units : List Nat
  feature_columns : Option (List FeatureColumn)
  model_dir : Option String
  n_classes : Nat
  weight_column_name : Option String
  optimizer : Option V
  activation_fn : ActivationFn
  dropout : Option V
  gradient_clip_norm : Option V
  config : Option V
  deriving DecidableEq

/-- The argument list of `DNNClassifier.__init__` when every optional
parameter is omitted: the source signature defaults `feature_columns`,
`model_dir`, `weight_column_name`, `optimizer`, `dropout`,
`gradient_clip_norm` and `config` to `None`, `n_classes` to `2` and
`activation_fn` to `nn.relu`. -/
def DNNClassifierArgs.withDefaults (V : Type) (hidden_units : List Nat) :
    DNNClassifierArgs V :=
  ⟨hidden_units, none, none, 2, none, none, nn.relu, none, none, none⟩

/-- Construction from an argument record, forwarding each field
positionally, exactly as `DNNClassifier.init` does. -/
def DNNClassifier.initArgs (V : Type) (a : DNNClassifierArgs V) :
    Except String (DNNLinearCombinedClassifierState V) :=
  DNNClassifier.init V a.hidden_units a.feature_columns a.model_dir
    a.n_classes a.weight_column_name a.optimizer a.activation_fn a.dropout
    a.gradient_clip_norm a.config

/-- The argument list of `DNNRegressor.__init__` as written in the source
signature, one field per parameter in declaration order. -/
structure DNNRegressorArgs (V : Type) where
  hidden_units : List Nat
  feature_columns : Option (List FeatureColumn)
  model_dir : Option String
  weight_column_name : Option String
  optimizer : Option V
  activation_fn : ActivationFn
  dropout : Option V
  gradient_clip_norm : Option V
  config : Option V
  deriving DecidableEq

/-- The argument list of `DNNRegressor.__init__` when every optional
parameter is omitted: the source signature defaults every optional value to
`None` except `activation_fn`, which defaults to `nn.relu`. -/
def DNNRegressorArgs.withDefaults (V : Type) (hidden_units : List Nat) :
    DNNRegressorArgs V :=
  ⟨hidden_units, none, none, none, none, nn.relu, none, none, none⟩

/-- Construction from an argument record, forwarding each field
positionally, exactly as `DNNRegressor.init` does. -/
def DNNRegressor.initArgs (V : Type) (a : DNNRegressorArgs V) :
    DNNLinearCombinedRegressorState V :=
  DNNRegressor.init V a.hidden_units a.feature_columns a.model_dir
    a.weight_column_name a.optimizer a.activation_fn a.dropout
    a.gradient_clip_norm a.config

/-- State of the deprecated alias `TensorFlowDNNClassifier`: per the spec
the alias adds "no new fields or logic" beyond emitting a one-time
deprecation notice, so its state is the facade's state plus the notice
flag. -/
structure TensorFlowDNNClassifierState (V : Type) where
  deprecation_notice_emitted : Bool
  base : DNNLinearCombinedClassifierState V
  deriving DecidableEq

/-- State of the deprecated alias `TensorFlowDNNRegressor`, as for the
classifier alias. -/
structure TensorFlowDNNRegressorState (V : Type) where
  deprecation_notice_emitted : Bool
  base : DNNLinearCombinedRegressorState V
  deriving DecidableEq

/-- Modelled from the spec: `DeprecatedMixin` and the sklearn compatibility
mixin composed into `TensorFlowDNNClassifier` are not under `src/`; per the
spec the alias emits "a one-time, non-fatal deprecation notice" and then
constructs exactly what the modern facade constructs with the same
arguments. -/
def TensorFlowDNNClassifier.init (V : Type) (hidden_units : List Nat)
    (feature_columns : Option (List FeatureColumn))
    (model_dir : Option String) (n_classes : Nat)
    (weight_column_name : Option String) (optimizer : Option V)
    (activation_fn : ActivationFn) (dropout : Option V)
    (gradient_clip_norm : Option V) (config : Option V) :
    Except String (TensorFlowDNNClassifierState V) :=
  (DNNClassifier.init V hidden_units feature_columns model_dir n_classes
      weight_column_name optimizer activation_fn dropout gradient_clip_norm
      config).map
    (fun s => ⟨true, s⟩)

/-- Modelled from the spec: the deprecated regressor alias constructor, as
for the classifier alias. -/
def TensorFlowDNNRegressor.init (V : Type) (hidden_units : List Nat)
    (feature_columns : Option (List FeatureColumn))
    (model_dir : Option String) (weight_column_name : Option String)
    (optimizer : Option V) (activation_fn : ActivationFn)
    (dropout : Option V) (gradient_clip_norm : Option V)
    (config : Option V) : TensorFlowDNNRegressorState V :=
  ⟨true,
    DNNRegressor.init V hidden_units feature_columns model_dir
      weight_column_name optimizer activation_fn dropout gradient_clip_norm
      config⟩

/-- Modelled from the spec: training-op retrieval through the deprecated
classifier alias delegates unchanged to the facade (the mixins override no
behavior of this layer other than the notice, which stays as it is). -/
def TensorFlowDNNClassifier.get_train_ops (V T : Type)
    (self : TensorFlowDNNClassifierState V) (features : Features)
    (targets : T) :
    TensorFlowDNNClassifierState V ×
      TrainOps (DNNLinearCombinedClassifierState V) T :=
  let r := DNNClassifier.get_train_ops V T self.base features targets
  (⟨self.deprecation_notice_emitted, r.1⟩, r.2)

/-- Modelled from the spec: training-op retrieval through the deprecated
regressor alias delegates unchanged to the facade. -/
def TensorFlowDNNRegressor.get_train_ops (V T : Type)
    (self : TensorFlowDNNRegressorState V) (features : Features)
    (targets : T) :
    TensorFlowDNNRegressorState V ×
      TrainOps (DNNLinearCombinedRegressorState V) T :=
  let r := DNNRegressor.get_train_ops V T self.base features targets
  (⟨self.deprecation_notice_emitted, r.1⟩, r.2)

/-- Modelled from the spec: the prediction accessors through the deprecated
classifier alias are the facade's, read on the embedded base state. -/
def TensorFlowDNNClassifier.weights_ (V : Type)
    (self : TensorFlowDNNClassifierState V) : Except String V :=
  DNNClassifier.weights_ V self.base

/-- Modelled from the spec: the prediction accessors through the deprecated
regressor alias are the facade's, read on the embedded base state. -/
def TensorFlowDNNRegressor.weights_ (V : Type)
    (self : TensorFlowDNNRegressorState V) : Except String V :=
  DNNRegressor.weights_ V self.base

/-- A concrete input feature mapping with one dense and one sparse field,
used to instantiate the universally quantified theorems below. -/
def sampleFeatures : Features :=
  [("age", FeatureValue.denseTensor [30, 40]),
   ("zip", FeatureValue.sparseTensor [94110])]

/-- A concrete classifier state with no stored feature columns, as produced
by a construction that omitted `feature_columns`. -/
def sampleClassifierState : DNNLinearCombinedClassifierState Nat :=
  ⟨none, 2, none, none, none, none, none, [10, 5], ActivationFn.relu,
    none, none, none, none, none⟩

/-- A concrete regressor state with no stored feature columns, as produced
by a construction that omitted `feature_columns`. -/
def sampleRegressorState : DNNLinearCombinedRegressorState Nat :=
  ⟨none, none, none, none, none, none, [10, 5], ActivationFn.relu,
    none, none, none, none, none⟩

/-- Claim C1: constructing `DNNClassifier` (or `DNNRegressor`, which takes
the same parameters minus the class count) stores each supplied value
verbatim in the parent estimator under its renamed key (`feature_columns`
as `dnn_feature_columns`, `optimizer` as `dnn_optimizer`, `hidden_units`
as `dnn_hidden_units`, `activation_fn` as `dnn_activation_fn`, `dropout`
as `dnn_dropout`; `model_dir`, `n_classes`, `weight_column_name`,
`gradient_clip_norm` and `config` unrenamed), so reading the
hyperparameters back from the parent yields exactly the values passed in. -/
theorem constructor_pass_through (V : Type) (hidden_units : List Nat)
    (feature_columns : Option (List FeatureColumn))
    (model_dir : Option String) (n_classes : Nat)
    (weight_column_name : Option String) (optimizer : Option V)
    (activation_fn : ActivationFn)
    (dropout gradient_clip_norm config : Option V) (h : 1 < n_classes) :
    DNNClassifier.init V hidden_units feature_columns model_dir n_classes
        weight_column_name optimizer activation_fn dropout
        gradient_clip_norm config
      = Except.ok ⟨model_dir, n_classes, weight_column_name, none, none,
          feature_columns, optimizer, hidden_units, activation_fn, dropout,
          gradient_clip_norm, config, none, none⟩
    ∧ DNNRegressor.init V hidden_units feature_columns model_dir
        weight_column_name optimizer activation_fn dropout
        gradient_clip_norm config
      = ⟨model_dir, weight_column_name, none, none, feature_columns,
          optimizer, hidden_units, activation_fn, dropout,
          gradient_clip_norm, config, none, none⟩ := by
  constructor
  · unfold DNNClassifier.init DNNLinearCombinedClassifier.init
    rw [if_neg (Nat.not_le.mpr h)]
  · rfl

/-- Witness for claim C1 at concrete arguments. -/
theorem constructor_pass_through_witness :
    DNNClassifier.init Nat [10, 5] none (some "dir") 3 (some "w") (some 7)
        ActivationFn.relu none none none
      = Except.ok ⟨some "dir", 3, some "w", none, none, none, some 7,
          [10, 5], ActivationFn.relu, none, none, none, none, none⟩ :=
  (constructor_pass_through Nat [10, 5] none (some "dir") 3 (some "w")
    (some 7) ActivationFn.relu none none none (by decide)).1

/-- Claim C2: on a facade constructed with no explicit feature columns,
calling `_get_train_ops` twice with the same feature mapping yields the
same inferred feature-column collection both times, and the stored field is
written at most once: after the first call it is non-`None`, and the second
call leaves the state exactly as the first call left it. -/
theorem lazy_inference_idempotent (V T : Type)
    (c : DNNLinearCombinedClassifierState V)
    (r : DNNLinearCombinedRegressorState V) (features : Features)
    (t1 t2 : T) (hc : c.dnn_feature_columns = none)
    (hr : r.dnn_feature_columns = none) :
    ((DNNClassifier.get_train_ops V T c features t1).1).dnn_feature_columns
      = some (layers.infer_real_valued_columns features)
    ∧ Option.isSome
        ((DNNClassifier.get_train_ops V T c features t1).1).dnn_feature_columns
      = true
    ∧ (DNNClassifier.get_train_ops V T
            (DNNClassifier.get_train_ops V T c features t1).1 features t2).1
      = (DNNClassifier.get_train_ops V T c features t1).1
    ∧ ((DNNClassifier.get_train_ops V T
            (DNNClassifier.get_train_ops V T c features t1).1 features
            t2).2).state.dnn_feature_columns
      = some (layers.infer_real_valued_columns features)
    ∧ ((DNNRegressor.get_train_ops V T r features t1).1).dnn_feature_columns
      = some (layers.infer_real_valued_columns features)
    ∧ Option.isSome
        ((DNNRegressor.get_train_ops V T r features t1).1).dnn_feature_columns
      = true
    ∧ (DNNRegressor.get_train_ops V T
            (DNNRegressor.get_train_ops V T r features t1).1 features t2).1
      = (DNNRegressor.get_train_ops V T r features t1).1
    ∧ ((DNNRegressor.get_train_ops V T
            (DNNRegressor.get_train_ops V T r features t1).1 features
            t2).2).state.dnn_feature_columns
      = some (layers.infer_real_valued_columns features) := by
  simp [DNNClassifier.get_train_ops, DNNRegressor.get_train_ops,
    DNNLinearCombinedClassifier.get_train_ops,
    DNNLinearCombinedRegressor.get_train_ops, hc, hr]

/-- Witness for claim C2 at a concrete state and feature mapping. -/
theorem lazy_inference_idempotent_witness :
    sampleClassifierState.dnn_feature_columns = none
    ∧ ((DNNClassifier.get_train_ops Nat Nat sampleClassifierState
          sampleFeatures 0).1).dnn_feature_columns
      = some (layers.infer_real_valued_columns sampleFeatures) :=
  ⟨rfl,
    (lazy_inference_idempotent Nat Nat sampleClassifierState
      sampleRegressorState sampleFeatures 0 1 rfl rfl).1⟩

/-- Claim C3: `_get_train_ops` infers real-valued columns from the feature
mapping exactly when the stored collection is `None` (a supplied collection
is kept and never replaced by inference; an absent one is replaced by the
inferred one), and in every case delegates to the parent's training-op
construction on the receiver holding the possibly newly inferred columns. -/
theorem get_train_ops_inference_and_delegation (V T : Type)
    (c : DNNLinearCombinedClassifierState V)
    (r : DNNLinearCombinedRegressorState V) (features : Features) (t : T) :
    ((DNNClassifier.get_train_ops V T c features t).1).dnn_feature_columns
      = some (c.dnn_feature_columns.getD
          (layers.infer_real_valued_columns features))
    ∧ (DNNClassifier.get_train_ops V T c features t).2
      = DNNLinearCombinedClassifier.get_train_ops V T
          (DNNClassifier.get_train_ops V T c features t).1 features t
    ∧ ((DNNRegressor.get_train_ops V T r features t).1).dnn_feature_columns
      = some (r.dnn_feature_columns.getD
          (layers.infer_real_valued_columns features))
    ∧ (DNNRegressor.get_train_ops V T r features t).2
      = DNNLinearCombinedRegressor.get_train_ops V T
          (DNNRegressor.get_train_ops V T r features t).1 features t := by
  refine ⟨?_, rfl, ?_, rfl⟩
  · cases hc : c.dnn_feature_columns <;>
      simp [DNNClassifier.get_train_ops, hc]
  · cases hr : r.dnn_feature_columns <;>
      simp [DNNRegressor.get_train_ops, hr]

/-- Claim C4: the only mutation this layer performs is the one-time lazy
feature-column default inside `_get_train_ops`: the state it returns is the
receiver with at most the `dnn_feature_columns` field changed, every other
hyperparameter field untouched.  (Construction builds a fresh state, and
the `weights_`/`bias_` accessors are embedded as pure reads, so
`_get_train_ops` is the only state transformer of this layer.) -/
theorem get_train_ops_frame (V T : Type)
    (c : DNNLinearCombinedClassifierState V)
    (r : DNNLinearCombinedRegressorState V) (features : Features) (t : T) :
    (∃ cols, (DNNClassifier.get_train_ops V T c features t).1
        = { c with dnn_feature_columns := cols })
    ∧ (∃ cols, (DNNRegressor.get_train_ops V T r features t).1
        = { r with dnn_feature_columns := cols }) := by
  constructor
  · refine ⟨((DNNClassifier.get_train_ops V T c features
        t).1).dnn_feature_columns, ?_⟩
    cases hc : c.dnn_feature_columns with
    | none => simp [DNNClassifier.get_train_ops, hc]
    | some cols =>
        simp only [DNNClassifier.get_train_ops, hc, Option.isNone_some,
          Bool.false_eq_true, if_false]
        rw [← hc]
  · refine ⟨((DNNRegressor.get_train_ops V T r features
        t).1).dnn_feature_columns, ?_⟩
    cases hr : r.dnn_feature_columns with
    | none => simp [DNNRegressor.get_train_ops, hr]
    | some cols =>
        simp only [DNNRegressor.get_train_ops, hr, Option.isNone_some,
          Bool.false_eq_true, if_false]
        rw [← hr]

/-- Claim C5: the `weights_` accessor returns exactly the parent's
deep-network weights value (`dnn_weights_`) and `bias_` returns exactly the
parent's `dnn_bias_`, with no transformation; in particular, before
training they fail with exactly the behavior the parent defines, this
layer adding no handling. -/
theorem weights_bias_pass_through (V : Type)
    (c : DNNLinearCombinedClassifierState V)
    (r : DNNLinearCombinedRegressorState V) :
    DNNClassifier.weights_ V c = DNNLinearCombinedClassifier.dnn_weights_ V c
    ∧ DNNClassifier.bias_ V c = DNNLinearCombinedClassifier.dnn_bias_ V c
    ∧ DNNRegressor.weights_ V r = DNNLinearCombinedRegressor.dnn_weights_ V r
    ∧ DNNRegressor.bias_ V r = DNNLinearCombinedRegressor.dnn_bias_ V r :=
  ⟨rfl, rfl, rfl, rfl⟩

/-- Claim C6: the deprecated aliases behave identically to the modern
facades with the same arguments: construction produces the same underlying
state (with the one-time deprecation notice recorded), training-op
retrieval returns the same training operations and updates the underlying
state the same way, and the accessors read the same values; the aliases add
no new fields or logic. -/
theorem deprecated_alias_equivalence (V T : Type) (hidden_units : List Nat)
    (feature_columns : Option (List FeatureColumn))
    (model_dir : Option String) (n_classes : Nat)
    (weight_column_name : Option String) (optimizer : Option V)
    (activation_fn : ActivationFn)
    (dropout gradient_clip_norm config : Option V)
    (tc : TensorFlowDNNClassifierState V)
    (tr : TensorFlowDNNRegressorState V) (features : Features) (t : T) :
    (TensorFlowDNNClassifier.init V hidden_units feature_columns model_dir
        n_classes weight_column_name optimizer activation_fn dropout
        gradient_clip_norm config).map (fun s => s.base)
      = DNNClassifier.init V hidden_units feature_columns model_dir
          n_classes weight_column_name optimizer activation_fn dropout
          gradient_clip_norm config
    ∧ (TensorFlowDNNClassifier.init V hidden_units feature_columns
        model_dir n_classes weight_column_name optimizer activation_fn
        dropout gradient_clip_norm config).map
          (fun s => s.deprecation_notice_emitted)
      = (DNNClassifier.init V hidden_units feature_columns model_dir
          n_classes weight_column_name optimizer activation_fn dropout
          gradient_clip_norm config).map (fun _ => true)
    ∧ (TensorFlowDNNClassifier.get_train_ops V T tc features t).1.base
      = (DNNClassifier.get_train_ops V T tc.base features t).1
    ∧ (TensorFlowDNNClassifier.get_train_ops V T tc features t).2
      = (DNNClassifier.get_train_ops V T tc.base features t).2
    ∧ TensorFlowDNNClassifier.weights_ V tc
      = DNNClassifier.weights_ V tc.base
    ∧ TensorFlowDNNRegressor.init V hidden_units feature_columns model_dir
        weight_column_name optimizer activation_fn dropout
        gradient_clip_norm config
      = ⟨true,
          DNNRegressor.init V hidden_units feature_columns model_dir
            weight_column_name optimizer activation_fn dropout
            gradient_clip_norm config⟩
    ∧ (TensorFlowDNNRegressor.get_train_ops V T tr features t).1.base
      = (DNNRegressor.get_train_ops V T tr.base features t).1
    ∧ (TensorFlowDNNRegressor.get_train_ops V T tr features t).2
      = (DNNRegressor.get_train_ops V T tr.base features t).2
    ∧ TensorFlowDNNRegressor.weights_ V tr
      = DNNRegressor.weights_ V tr.base := by
  refine ⟨?_, ?_, rfl, rfl, rfl, rfl, rfl, rfl, rfl⟩
  · cases h : DNNClassifier.init V hidden_units feature_columns model_dir
      n_classes weight_column_name optimizer activation_fn dropout
      gradient_clip_norm config <;>
      simp [TensorFlowDNNClassifier.init, h, Except.map]
  · cases h : DNNClassifier.init V hidden_units feature_columns model_dir
      n_classes weight_column_name optimizer activation_fn dropout
      gradient_clip_norm config <;>
      simp [TensorFlowDNNClassifier.init, h, Except.map]

/-- Claim C7: constructing `DNNClassifier` with a class count not greater
than 1 is rejected, and the rejection is exactly the parent constructor's:
the facade's own initializer performs no class-count validation, it
forwards `n_classes` to the parent unconditionally. -/
theorem n_classes_le_one_rejected (V : Type) (hidden_units : List Nat)
    (feature_columns : Option (List FeatureColumn))
    (model_dir : Option String) (n_classes : Nat)
    (weight_column_name : Option String) (optimizer : Option V)
    (activation_fn : ActivationFn)
    (dropout gradient_clip_norm config : Option V) (h : n_classes ≤ 1) :
    DNNClassifier.init V hidden_units feature_columns model_dir n_classes
        weight_column_name optimizer activation_fn dropout
        gradient_clip_norm config
      = Except.error "n_classes should be greater than 1"
    ∧ DNNClassifier.init V hidden_units feature_columns model_dir n_classes
        weight_column_name optimizer activation_fn dropout
        gradient_clip_norm config
      = DNNLinearCombinedClassifier.init V model_dir n_classes
          weight_column_name none none feature_columns optimizer
          hidden_units activation_fn dropout gradient_clip_norm config := by
  constructor
  · unfold DNNClassifier.init DNNLinearCombinedClassifier.init
    rw [if_pos h]
  · rfl

/-- Witness for claim C7 at `n_classes = 1`. -/
theorem n_classes_le_one_rejected_witness :
    DNNClassifier.init Nat [10, 5] none none 1 none none ActivationFn.relu
        none none none
      = Except.error "n_classes should be greater than 1" :=
  (n_classes_le_one_rejected Nat [10, 5] none none 1 none none
    ActivationFn.relu none none none (by decide)).1

/-- Claim C8: with the corresponding arguments omitted, `DNNClassifier`
defaults the class count to 2 and both facades default the activation
function to `nn.relu` (the standard rectified-linear unit), while feature
columns, model directory, weighting column, optimizer, dropout,
gradient-clipping norm and run configuration all default to absent;
constructing with those defaults stores exactly those values. -/
theorem constructor_defaults (V : Type) (hidden_units : List Nat) :
    (DNNClassifierArgs.withDefaults V hidden_units).n_classes = 2
    ∧ (DNNClassifierArgs.withDefaults V hidden_units).activation_fn
      = ActivationFn.relu
    ∧ nn.relu = ActivationFn.relu
    ∧ (DNNClassifierArgs.withDefaults V hidden_units).hidden_units
      = hidden_units
    ∧ (DNNClassifierArgs.withDefaults V hidden_units).feature_columns = none
    ∧ (DNNClassifierArgs.withDefaults V hidden_units).model_dir = none
    ∧ (DNNClassifierArgs.withDefaults V hidden_units).weight_column_name
      = none
    ∧ (DNNClassifierArgs.withDefaults V hidden_units).optimizer = none
    ∧ (DNNClassifierArgs.withDefaults V hidden_units).dropout = none
    ∧ (DNNClassifierArgs.withDefaults V hidden_units).gradient_clip_norm
      = none
    ∧ (DNNClassifierArgs.withDefaults V hidden_units).config = none
    ∧ (DNNRegressorArgs.withDefaults V hidden_units).activation_fn
      = ActivationFn.relu
    ∧ (DNNRegressorArgs.withDefaults V hidden_units).feature_columns = none
    ∧ (DNNRegressorArgs.withDefaults V hidden_units).model_dir = none
    ∧ (DNNRegressorArgs.withDefaults V hidden_units).weight_column_name
      = none
    ∧ (DNNRegressorArgs.withDefaults V hidden_units).optimizer = none
    ∧ (DNNRegressorArgs.withDefaults V hidden_units).dropout = none
    ∧ (DNNRegressorArgs.withDefaults V hidden_units).gradient_clip_norm
      = none
    ∧ (DNNRegressorArgs.withDefaults V hidden_units).config = none
    ∧ DNNClassifier.initArgs V (DNNClassifierArgs.withDefaults V
        hidden_units)
      = Except.ok ⟨none, 2, none, none, none, none, none, hidden_units,
          ActivationFn.relu, none, none, none, none, none⟩
    ∧ DNNRegressor.initArgs V (DNNRegressorArgs.withDefaults V hidden_units)
      = ⟨none, none, none, none, none, none, hidden_units,
          ActivationFn.relu, none, none, none, none, none⟩ := by
  refine ⟨rfl, rfl, rfl, rfl, rfl, rfl, rfl, rfl, rfl, rfl, rfl, rfl, rfl,
    rfl, rfl, rfl, rfl, rfl, rfl, ?_, rfl⟩
  rfl

/-- Claim C9: construction supplies the parent only the deep-network and
shared parameters; no linear-side parameter is ever set, so the combined
estimator is always configured in deep-only mode (linear feature columns
and linear optimizer absent in the resulting state). -/
theorem deep_only_mode (V : Type) (hidden_units : List Nat)
    (feature_columns : Option (List FeatureColumn))
    (model_dir : Option String) (n_classes : Nat)
    (weight_column_name : Option String) (optimizer : Option V)
    (activation_fn : ActivationFn)
    (dropout gradient_clip_norm config : Option V) (h : 1 < n_classes) :
    (DNNClassifier.init V hidden_units feature_columns model_dir n_classes
        weight_column_name optimizer activation_fn dropout
        gradient_clip_norm config).map
          (fun s => (s.linear_feature_columns, s.linear_optimizer))
      = Except.ok (none, none)
    ∧ (DNNRegressor.init V hidden_units feature_columns model_dir
        weight_column_name optimizer activation_fn dropout
        gradient_clip_norm config).linear_feature_columns = none
    ∧ (DNNRegressor.init V hidden_units feature_columns model_dir
        weight_column_name optimizer activation_fn dropout
        gradient_clip_norm config).linear_optimizer = none := by
  refine ⟨?_, rfl, rfl⟩
  unfold DNNClassifier.init DNNLinearCombinedClassifier.init
  rw [if_neg (Nat.not_le.mpr h)]
  rfl

/-- Witness for claim C9 at concrete arguments. -/
theorem deep_only_mode_witness :
    (DNNClassifier.init Nat [10, 5] none none 2 none none ActivationFn.relu
        none none none).map
          (fun s => (s.linear_feature_columns, s.linear_optimizer))
      = Except.ok (none, none) :=
  (deep_only_mode Nat [10, 5] none none 2 none none ActivationFn.relu none
    none none (by decide)).1

/-- Claim C10: the lazily inferred feature-column collection depends only
on the feature mapping, never on the targets: training-op retrieval on the
same state and features with arbitrary targets (even of different types)
stores the same feature-column collection. -/
theorem inference_independent_of_targets (V T1 T2 : Type)
    (c : DNNLinearCombinedClassifierState V)
    (r : DNNLinearCombinedRegressorState V) (features : Features)
    (t1 : T1) (t2 : T2) :
    ((DNNClassifier.get_train_ops V T1 c features t1).1).dnn_feature_columns
      = ((DNNClassifier.get_train_ops V T2 c features
          t2).1).dnn_feature_columns
    ∧ ((DNNRegressor.get_train_ops V T1 r features t1).1).dnn_feature_columns
      = ((DNNRegressor.get_train_ops V T2 r features
          t2).1).dnn_feature_columns := by
  constructor
  · cases hc : c.dnn_feature_columns <;>
      simp [DNNClassifier.get_train_ops, hc]
  · cases hr : r.dnn_feature_columns <;>
      simp [DNNRegressor.get_train_ops, hr]

end Dnn
